import Mathlib

/-!
Shallow embedding of the Attributor repository's identifier-attribution
engine (Sewer.py, Storm.py, SecondaryAttributor.py), together with proofs
about the claims of the specification.

Strings are modelled as `List Char`; Python decimal strings, slicing and
`int()` truncation are given explicit executable definitions; the arcpy
field-calculator passes become pure sequential transformations over lists
of records, with calculation errors (Python exceptions raised while
evaluating a field expression) modelled as an `Option String` error
component that aborts the remaining rows and passes, matching the single
top-level try/except of the scripts.
-/

namespace Attributor

/-! ### Python decimal strings, slicing and parsing -/

/-- Decimal digits of a natural number, most significant first, as numbers;
the fuel argument only bounds recursion depth and is always supplied as
`n + 1`, which is enough since the value shrinks by a factor of ten each
step. -/
def natDigitsAux : Nat → Nat → List Nat
  | 0, _ => []
  | fuel + 1, n => if n < 10 then [n] else natDigitsAux fuel (n / 10) ++ [n % 10]

/-- Decimal digits of a natural number, most significant first (`0 ↦ [0]`). -/
def natDigits (n : Nat) : List Nat := natDigitsAux (n + 1) n

/-- Decimal digit characters of a natural number, as Python's `str` renders it. -/
def natStr (n : Nat) : List Char := (natDigits n).map Nat.digitChar

/-- Python `str` of an integer: optional minus sign followed by decimal digits. -/
def intStr (i : Int) : List Char :=
  if i < 0 then '-' :: natStr i.natAbs else natStr i.natAbs

/-- Python `int()` applied to a rational: truncation toward zero. -/
def pyTrunc (q : ℚ) : Int := Int.tdiv q.num (q.den : Int)

/-- Python slice `s[a:b]` for nonnegative bounds. -/
def pySlice (s : List Char) (a b : Nat) : List Char := (s.drop a).take (b - a)

/-- Python indexing `s[i]`; `none` models the `IndexError` raised when the
index is out of range. -/
def pyIndex (s : List Char) (i : Nat) : Option Char := s.get? i

/-- Python slice `s[-2:]`: the last two characters (the whole string when it
is shorter than two characters). -/
def pyTail2 (s : List Char) : List Char := s.drop (s.length - 2)

/-- Python slice `s[-3:]`: the last three characters. -/
def pyTail3 (s : List Char) : List Char := s.drop (s.length - 3)

/-- Python slice `s[:9]`: the first nine characters. -/
def pyTake9 (s : List Char) : List Char := s.take 9

/-- Python lexicographic string comparison (strict less-than). -/
def strLt : List Char → List Char → Bool
  | [], [] => false
  | [], _ :: _ => true
  | _ :: _, [] => false
  | a :: as, b :: bs => if a < b then true else if b < a then false else strLt as bs

/-- Python `max` over a list of strings (the scripts apply it to the
nonempty cursor of existing identifiers); returns `[]` on an empty list,
a case the scripts guard against. -/
def strMaxList : List (List Char) → List Char
  | [] => []
  | x :: xs => xs.foldl (fun acc y => if strLt acc y then y else acc) x

/-- Substring test: does `s` contain `pat` as a contiguous substring?
Models the SQL predicate `s LIKE '%pat%'` used in the selection clauses. -/
def hasSub (pat s : List Char) : Bool :=
  (List.range (s.length + 1)).any (fun i => (s.drop i).take pat.length == pat)

/-- Python `s.replace("SD", "")`: delete every occurrence of `SD`,
scanning left to right. -/
def stripSD : List Char → List Char
  | 'S' :: 'D' :: rest => stripSD rest
  | c :: rest => c :: stripSD rest
  | [] => []

/-- One decimal digit character, or `none`. -/
def charDigit? (c : Char) : Option Nat :=
  if '0' ≤ c ∧ c ≤ '9' then some (c.toNat - 48) else none

/-- Digits-only part of Python `int(s)` on a string: the parsed value, or
`none` modelling the `ValueError` raised on an empty or non-numeric string. -/
def parseDigits (s : List Char) : Option Nat :=
  if s.isEmpty then none
  else
    s.foldl
      (fun acc c =>
        match acc, charDigit? c with
        | some n, some d => some (n * 10 + d)
        | _, _ => none)
      (some 0)

/-- Python `int(s)` on a string: optional leading minus sign followed by
digits; `none` models the `ValueError` on malformed input. -/
def parsePyInt (s : List Char) : Option Int :=
  match s with
  | '-' :: rest => (parseDigits rest).map (fun n => -(n : Int))
  | _ => (parseDigits s).map (fun n => (n : Int))

/-- Zero-pad a digit string at the front up to width `w`. -/
def padTo (w : Nat) (ds : List Char) : List Char :=
  List.replicate (w - ds.length) '0' ++ ds

/-- Python `f-string` formatting `f"{i:03}"`: pad with zeros to total width
three; for a negative value the sign comes first and the digits are padded
to width two. -/
def intPad3 (i : Int) : List Char :=
  if i < 0 then '-' :: padTo 2 (natStr i.natAbs) else padTo 3 (natStr i.natAbs)

/-- Zone-code sanitization `section.replace("-", "")`: drop every dash. -/
def sanitize (zone : List Char) : List Char := zone.filter (fun c => c ≠ '-')

/-- The string the field-calculator expression `f"'{value}'"` produces from a
cursor value: the string itself, or the literal text `None` when the cursor
field is SQL NULL (Python renders `None` into the f-string). -/
def pyRepr (o : Option (List Char)) : List Char :=
  match o with
  | some s => s
  | none => 'N' :: 'o' :: 'n' :: 'e' :: []

/-! ### The coordinate fingerprint

`spatial_id_point` in Sewer.py line 88 (identically Storm.py line 60):
`str(int(X))[2:4] + str(int(Y))[2:4] + '-' + str(int(X))[4] + str(int(Y))[4]
 + '-' + str(int(X))[-2:] + str(int(Y))[-2:]`;
the single-character index `[4]` raises `IndexError` when the truncated
integer's decimal string is shorter than five characters, modelled by the
`none` result. -/

/-- The point fingerprint expression applied to coordinate values. -/
def fingerprintPoint (x y : ℚ) : Option (List Char) :=
  let sx := intStr (pyTrunc x)
  let sy := intStr (pyTrunc y)
  match pyIndex sx 4, pyIndex sy 4 with
  | some cx, some cy =>
      some (pySlice sx 2 4 ++ pySlice sy 2 4 ++ ['-'] ++ [cx, cy] ++ ['-'] ++
        pyTail2 sx ++ pyTail2 sy)
  | _, _ => none

/-- The x coordinate 123456.7 of the specification's concrete fingerprint
scenario, as an explicit reduced fraction so that the kernel can evaluate
with it. -/
def coordX0 : ℚ := ⟨1234567, 10, by decide, by decide⟩

/-- The y coordinate 987654.3 of the concrete fingerprint scenario. -/
def coordY0 : ℚ := ⟨9876543, 10, by decide, by decide⟩

theorem coordX0_eq : coordX0 = (123456.7 : ℚ) := by
  show (⟨1234567, 10, by decide, by decide⟩ : ℚ) = _
  rw [Rat.mk'_eq_divInt, Rat.divInt_eq_div]
  norm_num

theorem coordY0_eq : coordY0 = (987654.3 : ℚ) := by
  show (⟨9876543, 10, by decide, by decide⟩ : ℚ) = _
  rw [Rat.mk'_eq_divInt, Rat.divInt_eq_div]
  norm_num

example : pyTrunc coordX0 = 123456 := by decide
example : pyTrunc coordY0 = 987654 := by decide
example : fingerprintPoint coordX0 coordY0 =
    some ("3476-55-5654".toList) := by decide
example : fingerprintPoint (123 : ℚ) (987654 : ℚ) = none := by decide

/-! ### Point asset records

One record type serves the four point feature classes of Sewer.py
(ssManhole, ssInlet, ssCleanout, ssFitting).  `shapeX`/`shapeY` are the
geometry; `nad83x`/`nad83y` the geometry-derived coordinate fields filled
by `template_geometry_calculator`; `zones` lists the `SEWMAP` codes of the
PLSS quarter sections that completely contain the point (the containment
relation the engine queries).  The elevation fields written by
`template_geometry_z_calculator` (`NAVD88RIM` etc., copied from coincident
GPS nodes) are not modelled: no claim and no identifier computation reads
them. -/

structure PointAsset where
  oid : Nat
  shapeX : ℚ
  shapeY : ℚ
  nad83x : Option ℚ
  nad83y : Option ℚ
  spatialid : Option (List Char)
  facilityid : Option (List Char)
  stage : Int
  ownedby : Int
  zones : List (List Char)
deriving DecidableEq

/-! ### Field-calculator passes

`arcpy.CalculateField_management` over a layer with a definition query is
modelled as a sequential pass over the record list: each selected row's
field is set to the value of the expression; an expression that raises
(`none`) aborts the pass with the rows processed so far kept, modelling the
exception that propagates out of the tool into the script's single
top-level handler. -/

/-- Sequential field calculation: `sel` is the layer's selection clause,
`expr` the field expression (`none` = Python exception), `set` the write of
the computed value into the field. -/
def calcFieldSeq (sel : α → Bool) (expr : α → Option β) (set : α → β → α) :
    List α → List α × Option String
  | [] => ([], none)
  | a :: rest =>
    if sel a then
      match expr a with
      | some v =>
        let r := calcFieldSeq sel expr set rest
        (set a v :: r.1, r.2)
      | none => (a :: rest, some "calc error")
    else
      let r := calcFieldSeq sel expr set rest
      (a :: r.1, r.2)

/-- Chain two passes, short-circuiting on a pending error, as the script's
single try/except does. -/
def seqPass (r : List α × Option String) (f : List α → List α × Option String) :
    List α × Option String :=
  match r with
  | (s, none) => f s
  | (s, some e) => (s, some e)

/-- The `template_geometry_calculator` pass for `NAD83X`/`POINT_X`:
rows whose field is null get the geometry value, nothing else changes. -/
def geometryCalcX (s : List PointAsset) : List PointAsset :=
  s.map (fun a => if a.nad83x.isNone then { a with nad83x := some a.shapeX } else a)

/-- The `template_geometry_calculator` pass for `NAD83Y`/`POINT_Y`. -/
def geometryCalcY (s : List PointAsset) : List PointAsset :=
  s.map (fun a => if a.nad83y.isNone then { a with nad83y := some a.shapeY } else a)

/-- The field-calculator expression `spatial_id_point` read off a record's
`NAD83X`/`NAD83Y` fields; a null field in the expression raises. -/
def spatialIdPointExpr (a : PointAsset) : Option (List Char) :=
  match a.nad83x, a.nad83y with
  | some x, some y => fingerprintPoint x y
  | _, _ => none

/-! ### The zone-sequence allocator

`increment_function` (Sewer.py lines 42-59) is a code block handed to
`arcpy.CalculateField_management`; its module-level `index` starts at 0 for
each calculate call and the k-th calculated row receives
`map_section + f"{maximum + k:03}"`, with a trailing `C` when called with
type `'cleanouts'`. -/

/-- The name the `increment` closure returns for the row at (1-based)
index `k` of one calculate call: `cSuffix` tells whether the
`type == "cleanouts"` branch appends the trailing `C`. -/
def incName (mapSection : List Char) (maximum : Int) (cSuffix : Bool) (k : Nat) :
    List Char :=
  if cSuffix then
    mapSection ++ intPad3 (maximum + k) ++ ['C']
  else
    mapSection ++ intPad3 (maximum + k)

/-- One `CalculateField` call with the `increment` code block over the
selected rows of the store, threading the closure's `index` state through
the rows in store order and writing each computed name into `FACILITYID`. -/
def assignIncrement (mapSection : List Char) (maximum : Int) (cSuffix : Bool)
    (sel : PointAsset → Bool) : Nat → List PointAsset → List PointAsset
  | _, [] => []
  | idx, a :: rest =>
    if sel a then
      { a with facilityid := some (incName mapSection maximum cSuffix (idx + 1)) } ::
        assignIncrement mapSection maximum cSuffix sel (idx + 1) rest
    else
      a :: assignIncrement mapSection maximum cSuffix sel idx rest

example :
    assignIncrement ("1414".toList) 70 false (fun a => a.facilityid.isNone) 0
      [⟨1, 0, 0, none, none, none, none, 0, 1, []⟩] =
      [⟨1, 0, 0, none, none, none, some ("1414071".toList), 0, 1, []⟩] := by decide

/-! ### The per-zone facility-id loops

Each of `manholes()`, `cleanouts()` and `fittings()` selects its null
assets, collects the quarter sections completely containing them, and per
section: scans the whole feature class for identifiers containing the
sanitized section code (`FACILITYID LIKE '%code%'`), takes the Python
`max`, parses `int(max.replace("SD","")[-3:])` (fittings insert a `[:9]`
before the final slice) as the current maximum — 0 when no identifier
matches — and calculates the null assets completely within the section
with the `increment` code block. -/

/-- The highest existing sequence number for a sanitized section code:
`none` models the `ValueError` Python's `int()` raises on a non-numeric
suffix, which aborts the whole category function. -/
def zoneExistingMax (san : List Char) (withStage : Bool) (take9 : Bool)
    (store : List PointAsset) : Option Int :=
  let existing := store.filter (fun m =>
    (match m.facilityid with
     | some f => hasSub san f
     | none => false) && (!withStage || m.stage == 0))
  if existing.isEmpty then some 0
  else
    let mx := stripSD (strMaxList (existing.filterMap (fun m => m.facilityid)))
    parsePyInt (pyTail3 (if take9 then pyTake9 mx else mx))

/-- The assets completely within the quarter sections whose `SEWMAP`
matches `LIKE '%raw%'` (the loop re-selects the sections by that pattern
before selecting the contained assets). -/
def withinSection (allSections : List (List Char)) (raw : List Char)
    (m : PointAsset) : Bool :=
  (allSections.filter (fun q => hasSub raw q)).any (fun q => m.zones.contains q)

/-- One iteration of the manholes section loop (Sewer.py lines 190-208). -/
def processSectionManholes (allSections : List (List Char)) (raw : List Char)
    (store : List PointAsset) : List PointAsset × Option String :=
  let san := sanitize raw
  match zoneExistingMax san true false store with
  | none => (store, some "ValueError")
  | some mx =>
    (assignIncrement san mx false
      (fun m => withinSection allSections raw m && m.facilityid.isNone &&
        m.stage == 0 && m.ownedby == 1) 0 store, none)

/-- One iteration of the cleanouts section loop (Sewer.py lines 287-305):
the null-asset subset has no `STAGE` clause and `increment` receives the
`'cleanouts'` type, appending the trailing `C`. -/
def processSectionCleanouts (allSections : List (List Char)) (raw : List Char)
    (store : List PointAsset) : List PointAsset × Option String :=
  let san := sanitize raw
  match zoneExistingMax san true false store with
  | none => (store, some "ValueError")
  | some mx =>
    (assignIncrement san mx true
      (fun m => withinSection allSections raw m && m.facilityid.isNone &&
        m.ownedby == 1) 0 store, none)

/-- One iteration of the fittings section loop (Sewer.py lines 331-350):
the existing-identifier scan has no `STAGE` clause and the maximum is
parsed from `[:9][-3:]` of the stripped identifier. -/
def processSectionFittings (allSections : List (List Char)) (raw : List Char)
    (store : List PointAsset) : List PointAsset × Option String :=
  let san := sanitize raw
  match zoneExistingMax san false true store with
  | none => (store, some "ValueError")
  | some mx =>
    (assignIncrement san mx false
      (fun m => withinSection allSections raw m && m.facilityid.isNone &&
        m.ownedby == 1) 0 store, none)

/-- Run the section loop over the collected sections, aborting on the
first Python exception. -/
def zoneLoop (process : List Char → List PointAsset → List PointAsset × Option String) :
    List (List Char) → List PointAsset → List PointAsset × Option String
  | [], store => (store, none)
  | s :: rest, store => seqPass (process s store) (zoneLoop process rest)

/-- The quarter sections that completely contain at least one asset
selected by `sel` (order follows the quarter-section store). -/
def zoneSections (sel : PointAsset → Bool) (allSections : List (List Char))
    (store : List PointAsset) : List (List Char) :=
  allSections.filter (fun q => store.any (fun m => sel m && m.zones.contains q))

/-- Null-manhole eligibility for the map-page loop (Sewer.py line 176). -/
def manholeNullSel (a : PointAsset) : Bool :=
  a.facilityid.isNone && a.stage == 0 && a.ownedby == 1

/-- Null-cleanout eligibility (Sewer.py line 273, no `STAGE` clause). -/
def cleanoutNullSel (a : PointAsset) : Bool :=
  a.facilityid.isNone && a.ownedby == 1

/-- Null-fitting eligibility (Sewer.py line 317). -/
def fittingNullSel (a : PointAsset) : Bool :=
  a.facilityid.isNone && a.ownedby == 1

/-- Write of a computed value into `SPATIALID`. -/
def setSpatialId (a : PointAsset) (v : List Char) : PointAsset :=
  { a with spatialid := some v }

/-- Write of a computed value into `FACILITYID`. -/
def setFacilityId (a : PointAsset) (v : List Char) : PointAsset :=
  { a with facilityid := some v }

/-- The `manholes()` function of Sewer.py: geometry fields, the
`SPATIALID` spatial pass (selection `FACILITYID IS NULL`), the privately
owned `FACILITYID` spatial pass (selection
`FACILITYID IS NULL AND OWNEDBY = -2`), then the map-page section loop. -/
def manholesRun (allSections : List (List Char)) (store : List PointAsset) :
    List PointAsset × Option String :=
  let g := geometryCalcY (geometryCalcX store)
  let p1 := calcFieldSeq (fun a => a.facilityid.isNone) spatialIdPointExpr setSpatialId g
  let p2 := seqPass p1 (calcFieldSeq
    (fun a => a.facilityid.isNone && a.ownedby == -2) spatialIdPointExpr setFacilityId)
  seqPass p2 (fun s =>
    zoneLoop (processSectionManholes allSections)
      (zoneSections manholeNullSel allSections s) s)

/-- The `inlets()` function: geometry fields, then `SPATIALID` and
`FACILITYID` spatial passes — both on the default selection
`FACILITYID IS NULL` (inlets are not a special case of
`template_spatial_calculator`, so the facility pass has no ownership
clause). -/
def inletsRun (store : List PointAsset) : List PointAsset × Option String :=
  let g := geometryCalcY (geometryCalcX store)
  let p1 := calcFieldSeq (fun a => a.facilityid.isNone) spatialIdPointExpr setSpatialId g
  seqPass p1 (calcFieldSeq (fun a => a.facilityid.isNone) spatialIdPointExpr setFacilityId)

/-- The `cleanouts()` function: geometry, `SPATIALID` pass, privately
owned `FACILITYID` pass, then the city section loop with the `'cleanouts'`
increment type. -/
def cleanoutsRun (allSections : List (List Char)) (store : List PointAsset) :
    List PointAsset × Option String :=
  let g := geometryCalcY (geometryCalcX store)
  let p1 := calcFieldSeq (fun a => a.facilityid.isNone) spatialIdPointExpr setSpatialId g
  let p2 := seqPass p1 (calcFieldSeq
    (fun a => a.facilityid.isNone && a.ownedby == -2) spatialIdPointExpr setFacilityId)
  seqPass p2 (fun s =>
    zoneLoop (processSectionCleanouts allSections)
      (zoneSections cleanoutNullSel allSections s) s)

/-- The `fittings()` function: only the section loop. -/
def fittingsRun (allSections : List (List Char)) (store : List PointAsset) :
    List PointAsset × Option String :=
  zoneLoop (processSectionFittings allSections)
    (zoneSections fittingNullSel allSections store) store

/-- An integer coordinate as a rational, kernel-friendly. -/
def ratInt (n : Int) : ℚ := ⟨n, 1, one_ne_zero, Nat.coprime_one_right _⟩

/-! ### Line assets and `gravity_mains()`

`ssGravityMain` records: start/end geometry, the four geometry-derived
coordinate fields, the endpoint labels `FROMMH`/`TOMH`, the (misspelled)
`SPATAILSTART`/`SPATAILEND` fields, `SPATIALID` and `FACILITYID`. -/

structure LineAsset where
  oid : Nat
  startX : ℚ
  startY : ℚ
  endX : ℚ
  endY : ℚ
  nadXStart : Option ℚ
  nadYStart : Option ℚ
  nadXEnd : Option ℚ
  nadYEnd : Option ℚ
  frommh : Option (List Char)
  tomh : Option (List Char)
  spatailstart : Option (List Char)
  spatailend : Option (List Char)
  spatialid : Option (List Char)
  facilityid : Option (List Char)
  stage : Int
  ownedby : Int
  watertype : List Char
deriving DecidableEq

/-- Geometry pass filling the four `NAD83*START/END` fields of null rows. -/
def mainsGeometry (s : List LineAsset) : List LineAsset :=
  let f1 := s.map (fun l => if l.nadXStart.isNone then { l with nadXStart := some l.startX } else l)
  let f2 := f1.map (fun l => if l.nadYStart.isNone then { l with nadYStart := some l.startY } else l)
  let f3 := f2.map (fun l => if l.nadXEnd.isNone then { l with nadXEnd := some l.endX } else l)
  f3.map (fun l => if l.nadYEnd.isNone then { l with nadYEnd := some l.endY } else l)

/-- The `spatial_start` expression over the start coordinate fields. -/
def spatialStartExpr (l : LineAsset) : Option (List Char) :=
  match l.nadXStart, l.nadYStart with
  | some x, some y => fingerprintPoint x y
  | _, _ => none

/-- The `spatial_end` expression over the end coordinate fields. -/
def spatialEndExpr (l : LineAsset) : Option (List Char) :=
  match l.nadXEnd, l.nadYEnd with
  | some x, some y => fingerprintPoint x y
  | _, _ => none

/-- The `spatial_id_line_sewer` expression
`!SPATAILSTART! + '_' + !SPATAILEND!`; a null field raises `TypeError`. -/
def spatialIdLineExpr (l : LineAsset) : Option (List Char) :=
  match l.spatailstart, l.spatailend with
  | some a, some b => some (a ++ ['_'] ++ b)
  | _, _ => none

/-- The map-page facility expression `!FROMMH! + '-' + !TOMH!`; a null
endpoint field raises `TypeError`. -/
def mapPageExpr (l : LineAsset) : Option (List Char) :=
  match l.frommh, l.tomh with
  | some f, some t => some (f ++ ['-'] ++ t)
  | _, _ => none

/-- The sanitary/combined watertype clause `WATERTYPE = 'SS' OR WATERTYPE = 'CB'`. -/
def watertypeSewer (l : LineAsset) : Bool :=
  l.watertype == "SS".toList || l.watertype == "CB".toList

/-- The `endpoint_naming` selection of still-unresolved city mains
(`FROMMH IS NULL` upstream / `TOMH IS NULL` downstream, plus
`STAGE = 0 AND OWNEDBY = 1` and the sewer watertype clause). -/
def endpointNullSel (upstream : Bool) (l : LineAsset) : Bool :=
  (if upstream then l.frommh.isNone else l.tomh.isNone) &&
    l.stage == 0 && l.ownedby == 1 && watertypeSewer l

/-- The endpoint vertex of a line in shape coordinates: the `START` or
`END` point produced by `FeatureVerticesToPoints`. -/
def lineVertex (upstream : Bool) (l : LineAsset) : ℚ × ℚ :=
  if upstream then (l.startX, l.startY) else (l.endX, l.endY)

/-- The `endpoint_naming` step of `gravity_mains()` for one point feature
class and one direction: the one-to-many spatial join of the point assets
intersecting the selected lines' vertices yields one row per coincident
(point, vertex) pair, in point-store order; the cursor loop then writes
each row's `FACILITYID` rendering (`f"'{value}'"`, the literal text `None`
when the point is unnamed) into the line's `FROMMH`/`TOMH`, later rows
overwriting earlier ones. -/
def endpointNaming (points : List PointAsset) (upstream : Bool)
    (mains : List LineAsset) : List LineAsset :=
  let selected := mains.filter (endpointNullSel upstream)
  let rows : List (Nat × Option (List Char)) :=
    points.flatMap (fun p =>
      (selected.filter (fun l => lineVertex upstream l = (p.shapeX, p.shapeY))).map
        (fun l => (l.oid, p.facilityid)))
  rows.foldl
    (fun ms row =>
      ms.map (fun l =>
        if l.oid == row.1 then
          if upstream then { l with frommh := some (pyRepr row.2) }
          else { l with tomh := some (pyRepr row.2) }
        else l))
    mains

/-- Write of a computed value into a line's `FACILITYID`. -/
def setLineFacilityId (l : LineAsset) (v : List Char) : LineAsset :=
  { l with facilityid := some v }

/-- The `gravity_mains()` function of Sewer.py: geometry passes, the five
spatial-field passes (the `FROMMH`/`TOMH` passes select privately owned
mains, the rest select `FACILITYID IS NULL`), the six endpoint-naming
steps (manholes, cleanouts, fittings — upstream and downstream), the
map-page facility pass over sanitary/combined stage-0 mains, and the
stormwater facility pass, which copies `SPATIALID` (copying a null field
just writes null, raising nothing). -/
def gravityMainsRun (manholeStore cleanoutStore fittingStore : List PointAsset)
    (mains : List LineAsset) : List LineAsset × Option String :=
  let g := mainsGeometry mains
  let p1 := calcFieldSeq (fun l => l.frommh.isNone && l.ownedby == -2)
    spatialStartExpr (fun l v => { l with frommh := some v }) g
  let p2 := seqPass p1 (calcFieldSeq (fun l => l.tomh.isNone && l.ownedby == -2)
    spatialEndExpr (fun l v => { l with tomh := some v }))
  let p3 := seqPass p2 (calcFieldSeq (fun l => l.facilityid.isNone)
    spatialStartExpr (fun l v => { l with spatailstart := some v }))
  let p4 := seqPass p3 (calcFieldSeq (fun l => l.facilityid.isNone)
    spatialEndExpr (fun l v => { l with spatailend := some v }))
  let p5 := seqPass p4 (calcFieldSeq (fun l => l.facilityid.isNone)
    spatialIdLineExpr (fun l v => { l with spatialid := some v }))
  let e1 := seqPass p5 (fun s => (endpointNaming manholeStore true s, none))
  let e2 := seqPass e1 (fun s => (endpointNaming manholeStore false s, none))
  let e3 := seqPass e2 (fun s => (endpointNaming cleanoutStore true s, none))
  let e4 := seqPass e3 (fun s => (endpointNaming cleanoutStore false s, none))
  let e5 := seqPass e4 (fun s => (endpointNaming fittingStore true s, none))
  let e6 := seqPass e5 (fun s => (endpointNaming fittingStore false s, none))
  let f1 := seqPass e6 (calcFieldSeq
    (fun l => l.facilityid.isNone && l.stage == 0 && watertypeSewer l)
    mapPageExpr setLineFacilityId)
  seqPass f1 (fun s =>
    (s.map (fun l =>
      if l.facilityid.isNone && l.stage == 0 && l.watertype == "SW".toList then
        { l with facilityid := l.spatialid }
      else l), none))

/-! ### Detention-pond attribution (SecondaryAttributor.py lines 123-133)

`pond_attribution` calculates `FACILITYID` over the whole `swDetention`
feature class — no selection layer, no null check.  Its expression slices
`str(!SHAPE!.centroid.X)` — the Python rendering of the centroid
coordinate, which the record carries as a character list. -/

structure Pond where
  oid : Nat
  centroidXStr : List Char
  centroidYStr : List Char
  facilityid : Option (List Char)
deriving DecidableEq

/-- The pond facility expression: the same `[2:4]`, `[4]`, `[-2:]` slicing
applied to the centroid coordinate strings. -/
def pondExpr (p : Pond) : Option (List Char) :=
  let sx := p.centroidXStr
  let sy := p.centroidYStr
  match pyIndex sx 4, pyIndex sy 4 with
  | some cx, some cy =>
      some (pySlice sx 2 4 ++ pySlice sy 2 4 ++ ['-'] ++ [cx, cy] ++ ['-'] ++
        pyTail2 sx ++ pyTail2 sy)
  | _, _ => none

/-- The `pond_attribution` pass: every pond, selected or not, gets its
facility identifier recalculated. -/
def pondAttribution (s : List Pond) : List Pond × Option String :=
  calcFieldSeq (fun _ => true) pondExpr
    (fun p v => { p with facilityid := some v }) s

/-! ### The script body of Sewer.py

`__main__` calls the five category functions in order inside a single
`try`; any exception raised while processing an asset or a zone propagates
out of its category function, skips every later category function, and is
caught and logged by the top-level handlers, after which the process ends
normally. -/

structure Store where
  sections : List (List Char)
  manholeStore : List PointAsset
  inletStore : List PointAsset
  cleanoutStore : List PointAsset
  fittingStore : List PointAsset
  mainStore : List LineAsset
deriving DecidableEq

/-- The try-block of Sewer.py's `__main__`: the five category functions in
order, stopping at the first exception; the second component is the
exception the top-level handler catches and logs, `none` on a clean run. -/
def scriptRun (s : Store) : Store × Option String :=
  let r1 := manholesRun s.sections s.manholeStore
  let s1 := { s with manholeStore := r1.1 }
  match r1.2 with
  | some e => (s1, some e)
  | none =>
    let r2 := inletsRun s1.inletStore
    let s2 := { s1 with inletStore := r2.1 }
    match r2.2 with
    | some e => (s2, some e)
    | none =>
      let r3 := cleanoutsRun s2.sections s2.cleanoutStore
      let s3 := { s2 with cleanoutStore := r3.1 }
      match r3.2 with
      | some e => (s3, some e)
      | none =>
        let r4 := fittingsRun s3.sections s3.fittingStore
        let s4 := { s3 with fittingStore := r4.1 }
        match r4.2 with
        | some e => (s4, some e)
        | none =>
          let r5 := gravityMainsRun s4.manholeStore s4.cleanoutStore
            s4.fittingStore s4.mainStore
          ({ s4 with mainStore := r5.1 }, r5.2)

/-! ## Claims -/

/-- C4.  The point fingerprint truncates each coordinate to an integer and
builds the token from the fixed digit offsets `[2:4]`, `[4]` and `[-2:]` of
each axis interleaved with dashes; it is deterministic, and on
`(123456.7, 987654.3)` the integer parts are `123456`/`987654` and the
token is exactly `3476-55-5654`. -/
theorem fingerprint_digit_offsets_and_concrete :
    pyTrunc (123456.7 : ℚ) = 123456 ∧
    pyTrunc (987654.3 : ℚ) = 987654 ∧
    fingerprintPoint (123456.7 : ℚ) (987654.3 : ℚ) =
      some ("3476-55-5654".toList) ∧
    (∀ x₁ y₁ x₂ y₂ : ℚ, x₁ = x₂ → y₁ = y₂ →
      fingerprintPoint x₁ y₁ = fingerprintPoint x₂ y₂) := by
  refine ⟨?_, ?_, ?_, ?_⟩
  · rw [← coordX0_eq]; decide
  · rw [← coordY0_eq]; decide
  · rw [← coordX0_eq, ← coordY0_eq]; decide
  · intro x₁ y₁ x₂ y₂ hx hy
    rw [hx, hy]

/-- C4 witness: the determinism hypothesis discharged at the concrete
scenario coordinates. -/
theorem fingerprint_digit_offsets_and_concrete_witness :
    fingerprintPoint (123456.7 : ℚ) (987654.3 : ℚ) =
      fingerprintPoint (123456.7 : ℚ) (987654.3 : ℚ) :=
  fingerprint_digit_offsets_and_concrete.2.2.2
    (123456.7 : ℚ) (987654.3 : ℚ) (123456.7 : ℚ) (987654.3 : ℚ) rfl rfl

/-- C5 counterexample.  The fingerprint is not total: on the coordinate
pair `(123, 987654)`, whose x integer part has fewer than five decimal
digits, the single-character index `[4]` is out of bounds and evaluation
raises `IndexError` instead of returning a token. -/
theorem fingerprint_short_coordinate_raises :
    fingerprintPoint (123 : ℚ) (987654 : ℚ) = none ∧
    (intStr (pyTrunc (123 : ℚ))).length < 5 := by
  constructor
  · rw [show (123 : ℚ) = ratInt 123 by rw [ratInt, Rat.mk'_eq_divInt, Rat.divInt_eq_div]; norm_num,
       show (987654 : ℚ) = ratInt 987654 by rw [ratInt, Rat.mk'_eq_divInt, Rat.divInt_eq_div]; norm_num]
    decide
  · rw [show (123 : ℚ) = ratInt 123 by rw [ratInt, Rat.mk'_eq_divInt, Rat.divInt_eq_div]; norm_num]
    decide

/-- C5 amended.  Whenever both coordinates truncate to integers whose
decimal strings have at least five characters, every digit extraction is
in bounds and the fingerprint returns a token. -/
theorem fingerprint_total_on_long_coordinates (x y : ℚ)
    (hx : 5 ≤ (intStr (pyTrunc x)).length)
    (hy : 5 ≤ (intStr (pyTrunc y)).length) :
    ∃ t, fingerprintPoint x y = some t := by
  have hx4 : ∃ cx, pyIndex (intStr (pyTrunc x)) 4 = some cx := by
    have : 4 < (intStr (pyTrunc x)).length := by omega
    exact ⟨_, List.get?_eq_get this⟩
  have hy4 : ∃ cy, pyIndex (intStr (pyTrunc y)) 4 = some cy := by
    have : 4 < (intStr (pyTrunc y)).length := by omega
    exact ⟨_, List.get?_eq_get this⟩
  obtain ⟨cx, hcx⟩ := hx4
  obtain ⟨cy, hcy⟩ := hy4
  unfold fingerprintPoint
  simp only [hcx, hcy]
  exact ⟨_, rfl⟩

/-- C5 amended witness: the totality theorem applied at the concrete
scenario coordinates. -/
theorem fingerprint_total_on_long_coordinates_witness :
    ∃ t, fingerprintPoint coordX0 coordY0 = some t :=
  fingerprint_total_on_long_coordinates coordX0 coordY0
    (by decide) (by decide)

/-- One increment calculate call hands the selected rows, in store order,
the names with sequence numbers `maximum + 1, maximum + 2, …` — pairing
each input row with its output row, the selected ones carry exactly the
names enumerated by `List.range'`. -/
theorem assignIncrement_suffixes (san : List Char) (mx : Int) (c : Bool)
    (sel : PointAsset → Bool) :
    ∀ (store : List PointAsset) (idx : Nat),
      ((store.zip (assignIncrement san mx c sel idx store)).filter
          (fun p => sel p.1)).map (fun p => p.2.facilityid) =
        (List.range' (idx + 1) (store.filter sel).length).map
          (fun k => some (incName san mx c k)) := by
  intro store
  induction store with
  | nil => intro idx; simp [assignIncrement]
  | cons a rest ih =>
    intro idx
    by_cases h : sel a
    · simp only [assignIncrement, h, if_true, List.zip_cons_cons,
        List.filter_cons, List.map_cons, List.range']
      exact congrArg _ (ih (idx + 1))
    · simp only [assignIncrement, if_neg h, List.zip_cons_cons,
        List.filter_cons, h, Bool.false_eq_true, if_false]
      exact ih idx

/-- The zone-sequence concrete scenario: zone code `14-14`, existing
identifiers `1414065` and `1414070` on stage-0 city manholes, and three
newly eligible null manholes in the zone. -/
def zoneDemoStore : List PointAsset :=
  [⟨1, ratInt 500000, ratInt 500001, none, none, none, some ("1414065".toList), 0, 1, ["14-14".toList]⟩,
   ⟨2, ratInt 500002, ratInt 500003, none, none, none, some ("1414070".toList), 0, 1, ["14-14".toList]⟩,
   ⟨3, ratInt 512345, ratInt 613456, none, none, none, none, 0, 1, ["14-14".toList]⟩,
   ⟨4, ratInt 522345, ratInt 623456, none, none, none, none, 0, 1, ["14-14".toList]⟩,
   ⟨5, ratInt 532345, ratInt 633456, none, none, none, none, 0, 1, ["14-14".toList]⟩]

/-- C1.  Within one engine run, one zone batch assigns the selected
assets, in processing order, the names whose numeric suffixes are exactly
`previousMax + 1, …, previousMax + N` — a contiguous strictly increasing
run with no duplicates — and on the concrete scenario (zone `14-14`,
existing `1414065`/`1414070`, three new eligible manholes) the full
`manholes()` pipeline yields exactly `1414071`, `1414072`, `1414073` in
processing order. -/
theorem zone_sequence_contiguous_run :
    (∀ (san : List Char) (mx : Int) (c : Bool) (sel : PointAsset → Bool)
        (store : List PointAsset),
      ((store.zip (assignIncrement san mx c sel 0 store)).filter
          (fun p => sel p.1)).map (fun p => p.2.facilityid) =
        (List.range' 1 (store.filter sel).length).map
          (fun k => some (incName san mx c k))) ∧
    ((manholesRun ["14-14".toList] zoneDemoStore).1.map (fun a => a.facilityid) =
      [some ("1414065".toList), some ("1414070".toList), some ("1414071".toList),
       some ("1414072".toList), some ("1414073".toList)]) ∧
    (manholesRun ["14-14".toList] zoneDemoStore).2 = none := by
  refine ⟨fun san mx c sel store => assignIncrement_suffixes san mx c sel store 0,
    ?_, ?_⟩ <;> decide


/-- Positional invariant of one field-calculator pass: a property `P`
preserved by the write on selected rows (or contradicting selection) holds
of the output row at each index where it held of the input row, whether
the pass completed or aborted. -/
theorem calcFieldSeq_get? (sel : α → Bool) (expr : α → Option β) (set : α → β → α)
    (P : α → Prop) (hset : ∀ a w, P a → sel a = true → P (set a w)) :
    ∀ (store : List α) (i : Nat) (a : α), store.get? i = some a → P a →
      ∃ b, ((calcFieldSeq sel expr set store).1).get? i = some b ∧ P b := by
  intro store
  induction store with
  | nil => intro i a h; simp at h
  | cons hd tl ih =>
    intro i a hga hP
    unfold calcFieldSeq
    by_cases hs : sel hd
    · simp only [hs, if_true]
      cases hex : expr hd with
      | some w =>
        cases i with
        | zero =>
          refine ⟨set hd w, ?_, ?_⟩
          · rfl
          · have : a = hd := by simpa using hga.symm
            exact this ▸ hset hd w (this ▸ hP) hs
        | succ j =>
          obtain ⟨b, hb, hPb⟩ := ih j a (by simpa using hga) hP
          exact ⟨b, hb, hPb⟩
      | none => exact ⟨a, hga, hP⟩
    · simp only [hs, if_false]
      cases i with
      | zero =>
        have : a = hd := by simpa using hga.symm
        exact ⟨hd, rfl, this ▸ hP⟩
      | succ j =>
        obtain ⟨b, hb, hPb⟩ := ih j a (by simpa using hga) hP
        exact ⟨b, hb, hPb⟩

theorem assignIncrement_get? (san : List Char) (mx : Int) (c : Bool)
    (sel : PointAsset → Bool) (hsel : ∀ x, sel x = true → x.facilityid = none) :
    ∀ (store : List PointAsset) (idx : Nat) (i : Nat) (a : PointAsset),
      store.get? i = some a → a.facilityid ≠ none →
      (assignIncrement san mx c sel idx store).get? i = some a := by
  intro store
  induction store with
  | nil => intro idx i a h; simp at h
  | cons hd tl ih =>
    intro idx i a hga hfid
    unfold assignIncrement
    by_cases hs : sel hd
    · simp only [hs, if_true]
      cases i with
      | zero =>
        have ha : a = hd := by simpa using hga.symm
        exact absurd (ha ▸ hsel hd hs) hfid
      | succ j => simpa using ih (idx + 1) j a (by simpa using hga) hfid
    · simp only [hs, if_false]
      cases i with
      | zero => simpa using hga
      | succ j => simpa using ih idx j a (by simpa using hga) hfid



def PresFid (f : List PointAsset → List PointAsset × Option String) : Prop :=
  ∀ (store : List PointAsset) (i : Nat) (a : PointAsset) (v : List Char),
    store.get? i = some a → a.facilityid = some v →
    ∃ b, ((f store).1).get? i = some b ∧ b.facilityid = some v ∧ b.oid = a.oid

theorem presFid_seqPass {f g : List PointAsset → List PointAsset × Option String}
    (hf : PresFid f) (hg : PresFid g) : PresFid (fun s => seqPass (f s) g) := by
  intro store i a v hga hfid
  obtain ⟨b, hb, hbf, hbo⟩ := hf store i a v hga hfid
  cases h : f store with
  | mk s' e =>
    rw [h] at hb
    cases e with
    | none =>
      obtain ⟨c, hc, hcf, hco⟩ := hg s' i b v hb hbf
      exact ⟨c, by simpa [seqPass, h] using hc, hcf, hco.trans hbo⟩
    | some err => exact ⟨b, by simpa [seqPass, h] using hb, hbf, hbo⟩

theorem processSectionManholes_pres (allSections : List (List Char)) (raw : List Char) :
    ∀ (store : List PointAsset) (i : Nat) (a : PointAsset),
      store.get? i = some a → a.facilityid ≠ none →
      ((processSectionManholes allSections raw store).1).get? i = some a := by
  intro store i a hga hfid
  unfold processSectionManholes
  cases h : zoneExistingMax (sanitize raw) true false store with
  | none => simp only [h]; exact hga
  | some mx =>
    simp only [h]
    refine assignIncrement_get? _ _ _ _ ?_ store 0 i a hga hfid
    intro x hx
    simp only [Bool.and_eq_true] at hx
    exact Option.isNone_iff_eq_none.mp hx.1.1.2

theorem zoneLoop_pres
    (process : List Char → List PointAsset → List PointAsset × Option String)
    (hp : ∀ raw store i a, store.get? i = some a → a.facilityid ≠ none →
      ((process raw store).1).get? i = some a) :
    ∀ (secs : List (List Char)) (store : List PointAsset) (i : Nat) (a : PointAsset),
      store.get? i = some a → a.facilityid ≠ none →
      ((zoneLoop process secs store).1).get? i = some a := by
  intro secs
  induction secs with
  | nil => intro store i a hga _; exact hga
  | cons s rest ih =>
    intro store i a hga hfid
    unfold zoneLoop
    cases h : process s store with
    | mk s' e =>
      have hs' : s'.get? i = some a := by
        have := hp s store i a hga hfid
        rwa [h] at this
      cases e with
      | none => simpa [seqPass, h] using ih s' i a hs' hfid
      | some err => simpa [seqPass, h] using hs'

theorem manholesRun_facilityid_once (allSections : List (List Char)) :
    PresFid (manholesRun allSections) := by
  have hgeom : ∀ (s : List PointAsset) (i : Nat) (a : PointAsset),
      s.get? i = some a →
      ∃ b, (geometryCalcY (geometryCalcX s)).get? i = some b ∧
        b.facilityid = a.facilityid ∧ b.oid = a.oid ∧ b.ownedby = a.ownedby := by
    intro s i a hga
    unfold geometryCalcY geometryCalcX
    rw [List.get?_map, List.get?_map, hga]
    simp only [Option.map_some']
    refine ⟨_, rfl, ?_, ?_, ?_⟩ <;>
      by_cases h1 : a.nad83x.isNone <;> by_cases h2 : a.nad83y.isNone <;>
        simp [h1, h2]
  have hspat : PresFid (fun s =>
      calcFieldSeq (fun x => x.facilityid.isNone) spatialIdPointExpr setSpatialId
        (geometryCalcY (geometryCalcX s))) := by
    intro store i a v hga hfid
    obtain ⟨b, hb, hbf, hbo, _⟩ := hgeom store i a hga
    obtain ⟨c, hc, hcf, hco⟩ :=
      calcFieldSeq_get? (fun x => x.facilityid.isNone) spatialIdPointExpr setSpatialId
        (fun x => x.facilityid = some v ∧ x.oid = a.oid)
        (fun x w hx _ => by
          have hx2 : x.facilityid = some v ∧ x.oid = a.oid := hx
          refine ⟨?_, ?_⟩ <;> simp [setSpatialId, hx2.1, hx2.2])
        _ i b (by simpa using hb) ⟨hbf.trans hfid, hbo⟩
    exact ⟨c, hc, hcf, hco⟩
  have hminus2 : PresFid (calcFieldSeq
      (fun x => x.facilityid.isNone && x.ownedby == -2) spatialIdPointExpr setFacilityId) := by
    intro store i a v hga hfid
    obtain ⟨c, hc, hcf, hco⟩ :=
      calcFieldSeq_get? _ spatialIdPointExpr setFacilityId
        (fun x => x.facilityid = some v ∧ x.oid = a.oid)
        (fun x w hx hsel => by
          exfalso
          have hsel2 : (x.facilityid.isNone && (x.ownedby == -2)) = true := hsel
          have hx2 : x.facilityid = some v ∧ x.oid = a.oid := hx
          rw [Bool.and_eq_true] at hsel2
          rw [Option.isNone_iff_eq_none.mp hsel2.1] at hx2
          exact Option.noConfusion hx2.1)
        store i a hga ⟨hfid, rfl⟩
    exact ⟨c, hc, hcf, hco⟩
  have hzone : PresFid (fun s =>
      zoneLoop (processSectionManholes allSections)
        (zoneSections manholeNullSel allSections s) s) := by
    intro store i a v hga hfid
    refine ⟨a, ?_, hfid, rfl⟩
    exact zoneLoop_pres _ (processSectionManholes_pres allSections) _ store i a hga
      (by rw [hfid]; exact Option.noConfusion)
  exact presFid_seqPass (presFid_seqPass hspat hminus2) hzone

/-- C2 counterexample.  Derived identifier fields are not written at most
once: a manhole with `spatialId` already set but `facilityId` still null is
selected by the `SPATIALID` pass (whose clause is `FACILITYID IS NULL`) and
its spatial identifier is recomputed and overwritten; and `pond_attribution`
recalculates the facility identifier of a detention pond whose
`facilityId` is already non-null. -/
theorem derived_fields_rewritten_counterexample :
    ((manholesRun [] [⟨1, coordX0, coordY0, none, none, some ("OLD".toList),
        none, 0, 0, []⟩]).1.map (fun a => a.spatialid) =
      [some ("3476-55-5654".toList)]) ∧
    some ("3476-55-5654".toList) ≠ some ("OLD".toList) ∧
    ((pondAttribution [⟨1, "123456.7".toList, "987654.3".toList,
        some ("KEEP".toList)⟩]).1.map (fun p => p.facilityid) =
      [some ("3476-55-.7.3".toList)]) ∧
    some ("3476-55-.7.3".toList) ≠ some ("KEEP".toList) := by
  refine ⟨?_, ?_, ?_, ?_⟩ <;> decide

/-- C2 amended.  On the manhole pipeline a non-null `facilityId` is indeed
never selected or mutated — every facility-writing selection requires
`FACILITYID IS NULL` — so the row keeps its identifier and object id
through the whole run; `spatialId`, however, is recomputed whenever
`facilityId` is null, and the detention-pond pass rewrites `facilityId`
unconditionally (the counterexample). -/
theorem facilityid_write_at_most_once (allSections : List (List Char))
    (store : List PointAsset) (i : Nat) (a : PointAsset) (v : List Char)
    (hga : store.get? i = some a) (hfid : a.facilityid = some v) :
    ∃ b, ((manholesRun allSections store).1).get? i = some b ∧
      b.facilityid = some v ∧ b.oid = a.oid :=
  manholesRun_facilityid_once allSections store i a v hga hfid

/-- C2 amended witness: the already-identified manhole `1414065` of the
concrete zone scenario is returned unchanged by the run. -/
theorem facilityid_write_at_most_once_witness :
    ∃ b, ((manholesRun ["14-14".toList] zoneDemoStore).1).get? 0 = some b ∧
      b.facilityid = some ("1414065".toList) ∧ b.oid = 1 :=
  facilityid_write_at_most_once ["14-14".toList] zoneDemoStore 0
    ⟨1, ratInt 500000, ratInt 500001, none, none, none,
      some ("1414065".toList), 0, 1, ["14-14".toList]⟩
    ("1414065".toList) rfl rfl

/-- A single null manhole lying inside two overlapping quarter sections. -/
def overlapStore (oid : Nat) : List PointAsset :=
  [⟨oid, ratInt 512345, ratInt 613456, none, none, none, none, 0, 1,
    ["14-14".toList, "15-15".toList]⟩]

/-- C6 counterexample.  An asset within more than one zone polygon does
not raise any ambiguity condition: the run finishes without error and the
asset silently receives the next sequence number of the first matching
zone (`1414001` from `14-14`), contradicting the claim that the condition
is surfaced and the asset skipped. -/
theorem ambiguous_zone_counterexample :
    (manholesRun ["14-14".toList, "15-15".toList] (overlapStore 7)).2 = none ∧
    ((manholesRun ["14-14".toList, "15-15".toList] (overlapStore 7)).1.map
        (fun a => a.facilityid) = [some ("1414001".toList)]) := by
  exact ⟨by decide, by decide⟩

/-- C6 amended.  A null manhole contained in both of two overlapping zones
is silently allocated from whichever matching zone comes first in
quarter-section iteration order — reversing the zone order hands the same
asset the other zone's code — and no error of any kind is signalled in
either order. -/
theorem first_zone_wins_silently :
    (manholesRun ["15-15".toList, "14-14".toList] (overlapStore 7)).2 = none ∧
    ((manholesRun ["15-15".toList, "14-14".toList] (overlapStore 7)).1.map
        (fun a => a.facilityid) = [some ("1515001".toList)]) := by
  exact ⟨by decide, by decide⟩



/-! ### Name-shape facts for the increment allocator -/

theorem natDigitsAux_ne_nil (fuel n : Nat) : natDigitsAux (fuel + 1) n ≠ [] := by
  unfold natDigitsAux
  by_cases h : n < 10 <;> simp [h]

theorem natDigitsAux_lt : ∀ (fuel n : Nat), ∀ d ∈ natDigitsAux fuel n, d < 10 := by
  intro fuel
  induction fuel with
  | zero => intro n d h; simp [natDigitsAux] at h
  | succ f ih =>
    intro n d h
    unfold natDigitsAux at h
    by_cases hn : n < 10
    · simp [hn] at h; omega
    · simp [hn] at h
      rcases h with h | h
      · exact ih (n / 10) d h
      · omega

theorem getLast?_map_digitChar : ∀ (l : List Nat),
    (l.map Nat.digitChar).getLast? = l.getLast?.map Nat.digitChar := by
  intro l
  induction l with
  | nil => rfl
  | cons a rest ih =>
    cases rest with
    | nil => rfl
    | cons b t =>
      simp only [List.map_cons, List.getLast?_cons_cons]
      simpa using ih

theorem exists_getLast?_mem : ∀ (l : List Nat), l ≠ [] →
    ∃ d, l.getLast? = some d ∧ d ∈ l := by
  intro l
  induction l with
  | nil => intro h; exact absurd rfl h
  | cons a rest ih =>
    intro _
    cases rest with
    | nil => exact ⟨a, rfl, List.mem_singleton.mpr rfl⟩
    | cons b t =>
      obtain ⟨d, hd, hmem⟩ := ih (by simp)
      exact ⟨d, by simpa [List.getLast?_cons_cons] using hd, List.mem_cons_of_mem _ hmem⟩

theorem natStr_getLast? (n : Nat) :
    ∃ d, d < 10 ∧ (natStr n).getLast? = some (Nat.digitChar d) := by
  obtain ⟨d, hd, hmem⟩ := exists_getLast?_mem (natDigits n) (natDigitsAux_ne_nil n n)
  refine ⟨d, natDigitsAux_lt (n + 1) n d hmem, ?_⟩
  rw [natStr, getLast?_map_digitChar, hd]
  rfl

theorem natStr_ne_nil (n : Nat) : natStr n ≠ [] := by
  intro h
  exact natDigitsAux_ne_nil n n (List.map_eq_nil.mp h)

theorem intPad3_getLast? (i : Int) :
    ∃ d, d < 10 ∧ (intPad3 i).getLast? = some (Nat.digitChar d) := by
  obtain ⟨d, hd, hlast⟩ := natStr_getLast? i.natAbs
  refine ⟨d, hd, ?_⟩
  unfold intPad3 padTo
  by_cases h : i < 0
  · simp only [h, if_true]
    rw [show ('-' :: (List.replicate (2 - (natStr i.natAbs).length) '0' ++ natStr i.natAbs)) =
        ('-' :: List.replicate (2 - (natStr i.natAbs).length) '0') ++ natStr i.natAbs from rfl,
      List.getLast?_append_of_ne_nil _ (natStr_ne_nil i.natAbs)]
    exact hlast
  · simp only [h, if_false]
    rw [List.getLast?_append_of_ne_nil _ (natStr_ne_nil i.natAbs)]
    exact hlast

theorem digitChar_ne_C (d : Nat) (h : d < 10) : Nat.digitChar d ≠ 'C' := by
  interval_cases d <;> decide

theorem incName_disjoint :
    ∀ (san1 san2 : List Char) (mx1 mx2 : Int) (k1 k2 : Nat),
      incName san1 mx1 true k1 ≠ incName san2 mx2 false k2 := by
  intro san1 san2 mx1 mx2 k1 k2 heq
  have hpadne : intPad3 (mx2 + k2) ≠ [] := by
    intro hnil
    obtain ⟨_, _, hlast⟩ := intPad3_getLast? (mx2 + k2)
    rw [hnil] at hlast
    exact Option.noConfusion hlast
  have h1 : (incName san1 mx1 true k1).getLast? = some 'C' := by
    rw [show incName san1 mx1 true k1 =
        (san1 ++ intPad3 (mx1 + k1)) ++ ['C'] from rfl,
      List.getLast?_append_of_ne_nil _ (by simp : (['C'] : List Char) ≠ [])]
    rfl
  obtain ⟨d, hd, h2⟩ := intPad3_getLast? (mx2 + k2)
  have h3 : (incName san2 mx2 false k2).getLast? = some (Nat.digitChar d) := by
    rw [show incName san2 mx2 false k2 =
        san2 ++ intPad3 (mx2 + k2) from rfl,
      List.getLast?_append_of_ne_nil _ hpadne]
    exact h2
  rw [heq, h3] at h1
  exact digitChar_ne_C d hd (Option.some.inj h1)

/-- C10.  A cleanout allocation produces `sanitizedZone + zero-padded
number + trailing C`, a manhole or fitting allocation produces
`sanitizedZone + zero-padded number` with no letter; consequently an
allocator-produced cleanout identifier never equals an allocator-produced
manhole (or fitting) identifier, whatever the zones, maxima and positions
— in particular within one run and one zone. -/
theorem cleanout_manhole_names_disjoint :
    (∀ (san : List Char) (mx : Int) (k : Nat),
      incName san mx true k = san ++ intPad3 (mx + k) ++ ['C']) ∧
    (∀ (san : List Char) (mx : Int) (k : Nat),
      incName san mx false k = san ++ intPad3 (mx + k)) ∧
    (∀ (san1 san2 : List Char) (mx1 mx2 : Int) (k1 k2 : Nat),
      incName san1 mx1 true k1 ≠ incName san2 mx2 false k2) :=
  ⟨fun _ _ _ => rfl, fun _ _ _ => rfl, incName_disjoint⟩



/-! ### Endpoint resolution claims -/

/-- A stage-0 city manhole at the demo line's start vertex, already
identified as `A`. -/
def endMh1 : PointAsset :=
  ⟨1, ratInt 512345, ratInt 613456, none, none, none, some ("A".toList), 0, 1, []⟩

/-- A stage-0 city manhole at the demo line's end vertex, already
identified as `B`. -/
def endMh2 : PointAsset :=
  ⟨2, ratInt 522345, ratInt 623456, none, none, none, some ("B".toList), 0, 1, []⟩

/-- The demo sanitary gravity main: city owned, as built, both endpoint
labels and all identifier fields still null. -/
def endLine : LineAsset :=
  ⟨10, ratInt 512345, ratInt 613456, ratInt 522345, ratInt 623456,
    none, none, none, none, none, none, none, none, none, none, 0, 1, "SS".toList⟩

/-- A proposed, foreign-owned manhole at the start vertex with no facility
identifier yet. -/
def unnamedMh : PointAsset :=
  ⟨3, ratInt 512345, ratInt 613456, none, none, none, none, 1, 0, []⟩

/-- A second identified manhole coincident with the start vertex,
labelled `B`, for the duplicate-candidate scenario. -/
def tieMhB : PointAsset :=
  ⟨5, ratInt 512345, ratInt 613456, none, none, none, some ("B".toList), 0, 1, []⟩


/-- C7 counterexample.  A line with only one resolvable endpoint does not
keep `facilityId` null: when the start vertex coincides with a point asset
whose own `facilityId` is still null, the cursor write renders the SQL
NULL as the literal string `None`, `FROMMH` becomes non-null, and the
facility pass builds `facilityId = None-B`. -/
theorem none_endpoint_counterexample :
    ((gravityMainsRun [unnamedMh, endMh2] [] [] [endLine]).1.map
        (fun l => l.facilityid) = [some ("None-B".toList)]) ∧
    (gravityMainsRun [unnamedMh, endMh2] [] [] [endLine]).2 = none ∧
    some ("None-B".toList) ≠ none := by
  refine ⟨?_, ?_, ?_⟩ <;> decide

/-- C7 amended.  When the unresolved endpoint has no coincident point
asset at all, the line does keep `facilityId` (and `FROMMH`) null and
still satisfies the endpoint-naming eligibility clause for the next run —
but the facility pass does not skip it gracefully: the expression
`!FROMMH! + '-' + !TOMH!` raises on the null field and the run ends in the
top-level error handler. -/
theorem endpoint_gate_on_missing_candidate :
    ((gravityMainsRun [endMh2] [] [] [endLine]).1.map
        (fun l => l.facilityid) = [none]) ∧
    ((gravityMainsRun [endMh2] [] [] [endLine]).1.map
        (fun l => l.frommh) = [none]) ∧
    ((gravityMainsRun [endMh2] [] [] [endLine]).1.map
        (fun l => l.tomh) = [some ("B".toList)]) ∧
    (gravityMainsRun [endMh2] [] [] [endLine]).2 ≠ none ∧
    ((gravityMainsRun [endMh2] [] [] [endLine]).1.map
        (endpointNullSel true) = [true]) := by
  refine ⟨?_, ?_, ?_, ?_, ?_⟩ <;> decide

/-- C8 counterexample.  With two identified candidates `A` and `B`
coincident with the start vertex, the endpoint label is not the
lexicographically smallest candidate: in store order `A, B` the join
cursor's final overwrite leaves `B` (although `A < B`), and reversing the
store order leaves `A` — the result depends on iteration order. -/
theorem endpoint_tie_counterexample :
    ((endpointNaming [endMh1, tieMhB] true [endLine]).map
        (fun l => l.frommh) = [some ("B".toList)]) ∧
    ((endpointNaming [tieMhB, endMh1] true [endLine]).map
        (fun l => l.frommh) = [some ("A".toList)]) ∧
    strLt ("A".toList) ("B".toList) = true := by
  refine ⟨?_, ?_, ?_⟩ <;> decide

theorem getLast?_map' (f : α → β) : ∀ l : List α,
    (l.map f).getLast? = l.getLast?.map f := by
  intro l
  induction l with
  | nil => rfl
  | cons a rest ih =>
    cases rest with
    | nil => rfl
    | cons b t =>
      simp only [List.map_cons, List.getLast?_cons_cons]
      simpa using ih

/-- Core induction behind the endpoint tie-break analysis: the upstream
endpoint label after `endpoint_naming` is the one written by the last
coincident join row, with the field left alone when no candidate
coincides. -/
theorem endpointNaming_last_wins_aux (l0 : LineAsset)
    (hsel : endpointNullSel true l0 = true) :
    ∀ ps : List PointAsset,
      endpointNaming ps true [l0] =
        [match (ps.filter
            (fun p => (l0.startX, l0.startY) = (p.shapeX, p.shapeY))).getLast? with
         | none => l0
         | some p => { l0 with frommh := some (pyRepr p.facilityid) }] := by
  have key : ∀ (rows : List (Nat × Option (List Char))) (cur : LineAsset),
      cur.oid = l0.oid →
      (∀ r ∈ rows, r.1 = l0.oid) →
      rows.foldl
        (fun ms row =>
          ms.map (fun l =>
            if l.oid == row.1 then
              { l with frommh := some (pyRepr row.2) }
            else l)) [cur] =
        [match rows.getLast? with
         | none => cur
         | some r => { cur with frommh := some (pyRepr r.2) }] := by
    intro rows
    induction rows with
    | nil => intro cur _ _; rfl
    | cons r rest ih =>
      intro cur hcur hall
      simp only [List.foldl_cons, List.map_cons, List.map_nil]
      rw [if_pos (by simp [hcur, hall r (List.mem_cons_self r rest)])]
      rw [ih { cur with frommh := some (pyRepr r.2) } (by simpa using hcur)
        (fun q hq => hall q (List.mem_cons_of_mem r hq))]
      cases hrest : rest.getLast? with
      | none =>
        have : rest = [] := by
          cases rest with
          | nil => rfl
          | cons x t => simp [List.getLast?_cons] at hrest
        subst this
        rfl
      | some q =>
        have hl : (r :: rest).getLast? = some q := by
          cases rest with
          | nil => simp at hrest
          | cons x t =>
            rw [List.getLast?_cons_cons]
            exact hrest
        rw [hl]
  have hsel_list : [l0].filter (endpointNullSel true) = [l0] := by
    simp [hsel]
  have rows_shape : ∀ ps : List PointAsset,
      ps.flatMap (fun p =>
        (([l0].filter (endpointNullSel true)).filter
            (fun l => lineVertex true l = (p.shapeX, p.shapeY))).map
          (fun l => (l.oid, p.facilityid))) =
        (ps.filter
            (fun p => (l0.startX, l0.startY) = (p.shapeX, p.shapeY))).map
          (fun p => (l0.oid, p.facilityid)) := by
    intro ps
    induction ps with
    | nil => rfl
    | cons p rest ih =>
      rw [List.flatMap_cons, hsel_list]
      by_cases hc : (l0.startX, l0.startY) = (p.shapeX, p.shapeY)
      · have hc2 : l0.startX = p.shapeX ∧ l0.startY = p.shapeY :=
          ⟨congrArg Prod.fst hc, congrArg Prod.snd hc⟩
        have h1 : [l0].filter
            (fun l => lineVertex true l = (p.shapeX, p.shapeY)) = [l0] := by
          simp [lineVertex, hc2.1, hc2.2]
        rw [h1, List.filter_cons, if_pos (by simpa using hc)]
        simp only [List.map_cons, List.map_nil, List.singleton_append]
        refine congrArg _ ?_
        rw [← hsel_list]
        exact ih
      · have h1 : [l0].filter
            (fun l => lineVertex true l = (p.shapeX, p.shapeY)) = [] := by
          simp only [List.filter_cons]
          rw [if_neg (by simpa [lineVertex] using hc)]
          rfl
        rw [h1, List.filter_cons, if_neg (by simpa using hc)]
        rw [← hsel_list] at ih ⊢
        simpa using ih
  intro ps
  have hrows := rows_shape ps
  have happ := key ((ps.filter
      (fun p => (l0.startX, l0.startY) = (p.shapeX, p.shapeY))).map
      (fun p => (l0.oid, p.facilityid))) l0 rfl
    (by intro r hr; simp only [List.mem_map] at hr; obtain ⟨p, _, hp⟩ := hr; rw [← hp])
  refine Eq.trans ?_ (happ.trans ?_)
  · show (ps.flatMap (fun p =>
        (([l0].filter (endpointNullSel true)).filter
            (fun l => lineVertex true l = (p.shapeX, p.shapeY))).map
          (fun l => (l.oid, p.facilityid)))).foldl _ [l0] =
      _
    rw [hrows]
    rfl
  · rw [getLast?_map']
    cases (ps.filter
        (fun p => (l0.startX, l0.startY) = (p.shapeX, p.shapeY))).getLast? with
    | none => rfl
    | some p => rfl

/-- C8 amended.  For a selected line and any point-asset store, the
upstream endpoint label after `endpoint_naming` is determined by the LAST
point asset in store iteration order coincident with the start vertex
(each one-to-many join row overwrites the previous write, and an unnamed
candidate writes the literal `None`); with no coincident candidate the
field stays as it was. -/
theorem endpoint_tie_last_candidate_wins (l0 : LineAsset)
    (hsel : endpointNullSel true l0 = true) :
    ∀ ps : List PointAsset,
      endpointNaming ps true [l0] =
        [match (ps.filter
            (fun p => (l0.startX, l0.startY) = (p.shapeX, p.shapeY))).getLast? with
         | none => l0
         | some p => { l0 with frommh := some (pyRepr p.facilityid) }] :=
  endpointNaming_last_wins_aux l0 hsel

/-- C8 amended witness: on the duplicate-candidate store in order `A, B`
the last candidate `B` wins. -/
theorem endpoint_tie_last_candidate_wins_witness :
    endpointNaming [endMh1, tieMhB] true [endLine] =
      [{ endLine with frommh := some ("B".toList) }] :=
  (endpoint_tie_last_candidate_wins endLine (by decide) [endMh1, tieMhB]).trans
    (by decide)

/-- The same line geometry as `endLine` but privately owned
(`OWNEDBY = -2`). -/
def privLine : LineAsset :=
  ⟨11, ratInt 512345, ratInt 613456, ratInt 522345, ratInt 623456,
    none, none, none, none, none, none, none, none, none, none, 0, -2, "SS".toList⟩

/-- Totality of one field-calculator pass: when the expression succeeds on
every selected row, no abort happens, and each selected row at position
`i` receives exactly the value of its expression. -/
theorem calcFieldSeq_total (sel : α → Bool) (expr : α → Option β) (set : α → β → α) :
    ∀ (store : List α),
      (∀ x ∈ store, sel x = true → (expr x).isSome = true) →
      ∀ (i : Nat) (a : α) (v : β), store.get? i = some a → sel a = true →
        expr a = some v →
        ((calcFieldSeq sel expr set store).1).get? i = some (set a v) := by
  intro store
  induction store with
  | nil => intro _ i a v h; simp at h
  | cons hd tl ih =>
    intro htot i a v hga hsel hexpr
    unfold calcFieldSeq
    by_cases hs : sel hd
    · cases hex : expr hd with
      | some w =>
        simp only [hs, if_true, hex]
        cases i with
        | zero =>
          have ha : a = hd := by simpa using hga.symm
          subst ha
          have hv : w = v := by
            rw [hexpr] at hex
            exact (Option.some.inj hex).symm
          simp [hv]
        | succ j =>
          simpa using ih (fun x hx => htot x (List.mem_cons_of_mem _ hx)) j a v
            (by simpa using hga) hsel hexpr
      | none =>
        exfalso
        have h2 := htot hd (List.mem_cons_self hd tl) hs
        rw [hex] at h2
        simp at h2
    · simp only [hs, if_false]
      cases i with
      | zero =>
        exfalso
        have ha : a = hd := by simpa using hga.symm
        subst ha
        exact hs hsel
      | succ j =>
        simpa using ih (fun x hx => htot x (List.mem_cons_of_mem _ hx)) j a v
          (by simpa using hga) hsel hexpr

/-- C3 counterexample.  A privately owned (`OWNEDBY = -2`) as-built
sanitary line whose two endpoints coincide with the identified assets `A`
and `B` does NOT receive `facilityId = A-B`: the `FROMMH`/`TOMH` spatial
passes fill its endpoint fields with fingerprint tokens, `endpoint_naming`
skips it (it requires `OWNEDBY = 1`), and the map-page pass — which has no
ownership clause — concatenates the two tokens instead. -/
theorem endpoint_pair_private_line_counterexample :
    ((gravityMainsRun [endMh1, endMh2] [] [] [privLine]).1.map
        (fun l => l.facilityid) =
      [some ("2334-45-4556-2334-45-4556".toList)]) ∧
    some ("2334-45-4556-2334-45-4556".toList) ≠ some ("A-B".toList) ∧
    (gravityMainsRun [endMh1, endMh2] [] [] [privLine]).2 = none := by
  refine ⟨?_, ?_, ?_⟩ <;> decide

/-- C3 amended.  For line assets the engine routes to the endpoint path
(city owned, as built, sanitary/combined, endpoint field null), endpoint
resolution and the facility pass behave as claimed, universally: for every
such line whose start vertex coincides with exactly one point asset, whose
identifier is `A`, `endpoint_naming` writes `FROMMH = A` exactly (the
downstream direction is the mirror image in code and embedding); for every
store and every selected line with `FROMMH = f` and `TOMH = t` the
map-page pass writes `facilityId = f-t` exactly, provided no selected row
has a null endpoint (otherwise the pass raises); and on the concrete
two-manhole store the whole `gravity_mains()` run produces `FROMMH = A`,
`TOMH = B`, `facilityId = A-B` with no error.  Lines outside this routing
get fingerprint-token identifiers instead (the counterexample). -/
theorem endpoint_pair_facility_id :
    (∀ (l0 : LineAsset), endpointNullSel true l0 = true →
      ∀ (ps : List PointAsset) (p : PointAsset) (A : List Char),
        ps.filter (fun q => (l0.startX, l0.startY) = (q.shapeX, q.shapeY)) = [p] →
        p.facilityid = some A →
        endpointNaming ps true [l0] = [{ l0 with frommh := some A }]) ∧
    (∀ (mains : List LineAsset) (i : Nat) (l : LineAsset) (f t : List Char),
      (∀ x ∈ mains,
        (x.facilityid.isNone && x.stage == 0 && watertypeSewer x) = true →
        (mapPageExpr x).isSome = true) →
      mains.get? i = some l →
      (l.facilityid.isNone && l.stage == 0 && watertypeSewer l) = true →
      l.frommh = some f → l.tomh = some t →
      ((calcFieldSeq
          (fun x => x.facilityid.isNone && x.stage == 0 && watertypeSewer x)
          mapPageExpr setLineFacilityId mains).1).get? i =
        some { l with facilityid := some (f ++ ['-'] ++ t) }) ∧
    ((gravityMainsRun [endMh1, endMh2] [] [] [endLine]).1.map
        (fun l => l.facilityid) = [some ("A-B".toList)]) ∧
    ((gravityMainsRun [endMh1, endMh2] [] [] [endLine]).1.map
        (fun l => l.frommh) = [some ("A".toList)]) ∧
    ((gravityMainsRun [endMh1, endMh2] [] [] [endLine]).1.map
        (fun l => l.tomh) = [some ("B".toList)]) ∧
    (gravityMainsRun [endMh1, endMh2] [] [] [endLine]).2 = none := by
  refine ⟨?_, ?_, ?_, ?_, ?_, ?_⟩
  · intro l0 hsel ps p A hfilter hfid
    rw [endpointNaming_last_wins_aux l0 hsel ps, hfilter]
    simp [hfid, pyRepr]
  · intro mains i l f t htot hga hsel hfrom hto
    have hexpr : mapPageExpr l = some (f ++ ['-'] ++ t) := by
      unfold mapPageExpr
      rw [hfrom, hto]
    exact calcFieldSeq_total _ mapPageExpr setLineFacilityId mains htot i l _
      hga hsel hexpr
  all_goals decide

/-- The demo line with both endpoint labels already resolved. -/
def endLineResolved : LineAsset := { endLine with
  frommh := some ("A".toList)
  tomh := some ("B".toList) }

/-- C3 amended witness: the resolution conjunct applied to the one-manhole
store around the demo line, and the map-page conjunct applied to the demo
line with both endpoints resolved. -/
theorem endpoint_pair_facility_id_witness :
    (endpointNaming [endMh1] true [endLine] =
      [{ endLine with frommh := some ("A".toList) }]) ∧
    ((calcFieldSeq
        (fun x => x.facilityid.isNone && x.stage == 0 && watertypeSewer x)
        mapPageExpr setLineFacilityId [endLineResolved]).1).get? 0 =
      some { endLineResolved with
        facilityid := some ("A".toList ++ ['-'] ++ "B".toList) } :=
  ⟨endpoint_pair_facility_id.1 endLine (by decide) [endMh1] endMh1 ("A".toList)
      (by decide) rfl,
   endpoint_pair_facility_id.2.1 [endLineResolved] 0 endLineResolved
      ("A".toList) ("B".toList) (by decide) rfl (by decide) rfl rfl⟩



/-! ### Error propagation in the script body -/

/-- A null city manhole in the healthy zone `13-13`. -/
def goodZoneMh : PointAsset :=
  ⟨20, ratInt 512345, ratInt 613456, none, none, none, none, 0, 1, ["13-13".toList]⟩

/-- A null city manhole in zone `14-14`, whose batch will fail. -/
def newMh1414 : PointAsset :=
  ⟨21, ratInt 522345, ratInt 623456, none, none, none, none, 0, 1, ["14-14".toList]⟩

/-- A manhole whose existing identifier `1414X7Y` has a non-numeric
suffix, so the `14-14` maximum scan's `int()` raises `ValueError`. -/
def badExisting : PointAsset :=
  ⟨22, ratInt 532345, ratInt 633456, none, none, none, some ("1414X7Y".toList), 0, 1, []⟩

/-- A perfectly eligible null cleanout in zone `15-15`. -/
def eligCleanout : PointAsset :=
  ⟨23, ratInt 542345, ratInt 643456, none, none, none, none, 0, 1, ["15-15".toList]⟩

/-- A store in which the manholes category fails on its second zone while
an unrelated cleanout is ready to be attributed. -/
def failStore : Store :=
  ⟨["13-13".toList, "14-14".toList, "15-15".toList],
   [goodZoneMh, newMh1414, badExisting], [], [eligCleanout], [], []⟩

/-- C9 counterexample.  One zone's failure is not isolated: after the
`14-14` maximum scan raises, the run ends with the error and the sibling
cleanouts category never executes — the eligible cleanout keeps a null
`facilityId`, although running `cleanouts()` on the same store would have
assigned it `1515001C` without any error. -/
theorem error_isolation_counterexample :
    (scriptRun failStore).2 ≠ none ∧
    ((scriptRun failStore).1.cleanoutStore.map (fun a => a.facilityid) =
      [none]) ∧
    ((cleanoutsRun failStore.sections failStore.cleanoutStore).1.map
        (fun a => a.facilityid) = [some ("1515001C".toList)]) ∧
    (cleanoutsRun failStore.sections failStore.cleanoutStore).2 = none := by
  refine ⟨?_, ?_, ?_, ?_⟩ <;> decide

/-- C9 amended.  Any exception raised while processing a zone (here the
`ValueError` of the `14-14` maximum scan) propagates out of the category
function to the script's single top-level handler: writes made before the
failure persist (`1313001` in the healthy zone), the failing zone's asset
stays null, and every remaining zone and category function of that run is
skipped — the cleanout and main stores come through untouched. -/
theorem failure_aborts_run_remainder :
    (scriptRun failStore).2 = some "ValueError" ∧
    ((scriptRun failStore).1.manholeStore.map (fun a => a.facilityid) =
      [some ("1313001".toList), none, some ("1414X7Y".toList)]) ∧
    (scriptRun failStore).1.cleanoutStore = failStore.cleanoutStore ∧
    (scriptRun failStore).1.mainStore = failStore.mainStore := by
  refine ⟨?_, ?_, ?_, ?_⟩ <;> decide


end Attributor
